import Mathlib

/-!
A shallow embedding of the Result type implemented by the repository in
src/simple_monads/result.py and src/pyadt/result.py, together with proofs
about its combinator algebra, its unwrap/propagation error behaviour and
the adapter decorators wrap_result / unwrap_result / stop.

Python values are modelled by a single inductive universe `PyVal` that
contains plain values, Result objects (Success / Error), the Maybe
collaborator values, and exception instances.  Python computations are
modelled by the monad `PyM`: explicit state passing of a side-effect
counter (used to observe that callbacks do or do not run) combined with
an exception channel carrying a thrown `PyVal`.
-/

set_option autoImplicit false

/-- The universe of Python values needed by the two modules: primitive
values, Result objects, the Maybe collaborator values (its module is not
part of the sources; its two variants are modelled from the spec, see
`isPresent`), and exception instances.  `excUnwrapError` carries the
message and the optional `__cause__` set by `raise ... from e`;
`excErrorWrapper` and `excPropagation` carry their single payload;
`excValueError` stands for an arbitrary domain exception;
`excNotImplemented` models the NotImplementedError raised by the
abstract base class `Result`. -/
inductive PyVal where
  | int : Int → PyVal
  | str : String → PyVal
  | pybool : Bool → PyVal
  | pynone : PyVal
  | success : PyVal → PyVal
  | error : PyVal → PyVal
  | something : PyVal → PyVal
  | nothing : PyVal
  | excUnwrapError : String → Option PyVal → PyVal
  | excErrorWrapper : PyVal → PyVal
  | excPropagation : PyVal → PyVal
  | excValueError : String → PyVal
  | excNotImplemented : PyVal


/-- `isinstance(v, Exception)`: true exactly for the exception-instance
constructors (every exception class in the modules derives from
`Exception`, including `Propagation`). -/
def isException : PyVal → Bool
  | PyVal.excUnwrapError _ _ => true
  | PyVal.excErrorWrapper _ => true
  | PyVal.excPropagation _ => true
  | PyVal.excValueError _ => true
  | PyVal.excNotImplemented => true
  | _ => false

/-- True exactly for Result objects (instances of `Success` or `Error`). -/
def isResultObj : PyVal → Bool
  | PyVal.success _ => true
  | PyVal.error _ => true
  | _ => false

/-- Modelled from the spec: the optional-value collaborator (the maybe
module is absent from the sources).  The spec describes it as two
capability-compatible variants present(value) / absent; `something` is
present and `nothing` is absent. -/
def isPresent : PyVal → Bool
  | PyVal.something _ => true
  | _ => false

/-- Exception classes usable in a `wrap_result` catch set. -/
inductive ExcClass where
  | exceptionClass
  | unwrapErrorClass
  | errorWrapperClass
  | propagationClass
  | valueErrorClass


/-- `isinstance(v, c)` for the modelled exception class hierarchy:
`Exception` is a superclass of every exception class, the others match
only their own instances. -/
def instanceOf (v : PyVal) : ExcClass → Bool
  | ExcClass.exceptionClass => isException v
  | ExcClass.unwrapErrorClass =>
      match v with | PyVal.excUnwrapError _ _ => true | _ => false
  | ExcClass.errorWrapperClass =>
      match v with | PyVal.excErrorWrapper _ => true | _ => false
  | ExcClass.propagationClass =>
      match v with | PyVal.excPropagation _ => true | _ => false
  | ExcClass.valueErrorClass =>
      match v with | PyVal.excValueError _ => true | _ => false

/-- `except catch` with `catch` a tuple of exception classes: the raised
value matches when it is an instance of some class of the tuple. -/
def matchesCatch (v : PyVal) (catchSet : List ExcClass) : Bool :=
  catchSet.any (fun c => instanceOf v c)

/-- Python `msg or default` for `msg : str | None`: `None` and the empty
string are falsy, any other string is returned unchanged. -/
def pyOr (msg : Option String) (dflt : String) : String :=
  match msg with
  | Option.none => dflt
  | Option.some s => if s = "" then dflt else s

/-- A Python computation: explicit state passing of a side-effect
counter, plus an exception channel carrying the raised value.  Raising
an exception does not roll back side effects, exactly as in Python. -/
def PyM (α : Type) : Type := Nat → Except PyVal α × Nat

/-- Return a value, leaving the side-effect counter unchanged. -/
def PyM.pure {α : Type} (a : α) : PyM α := fun s => (Except.ok a, s)

/-- Sequencing: run `m`; on normal completion feed its value to `f`; a
raised exception skips `f` but keeps the side effects of `m`. -/
def PyM.bind {α β : Type} (m : PyM α) (f : α → PyM β) : PyM β := fun s =>
  match m s with
  | (Except.ok a, s2) => f a s2
  | (Except.error e, s2) => (Except.error e, s2)

/-- `raise e`. -/
def PyM.throw {α : Type} (e : PyVal) : PyM α := fun s => (Except.error e, s)

/-- An observable side effect: increment the counter and return a value.
Used in theorems as a marker that must (or must not) run. -/
def PyM.effect (v : PyVal) : PyM PyVal := fun s => (Except.ok v, s + 1)

namespace simple_monads

/-- `Result.is_ok` (src/simple_monads/result.py): `Error.is_ok` returns
False, `Success.is_ok` returns True; the abstract base raises
NotImplementedError. -/
def is_ok : PyVal → PyM Bool
  | PyVal.error _ => PyM.pure false
  | PyVal.success _ => PyM.pure true
  | _ => PyM.throw PyVal.excNotImplemented

/-- `Result.is_err`: `Error.is_err` returns True, `Success.is_err`
returns False. -/
def is_err : PyVal → PyM Bool
  | PyVal.error _ => PyM.pure true
  | PyVal.success _ => PyM.pure false
  | _ => PyM.throw PyVal.excNotImplemented

/-- `__bool__`: `Error.__bool__` returns False, `Success.__bool__`
returns True; other values keep ordinary Python truthiness. -/
def py_bool : PyVal → Bool
  | PyVal.error _ => false
  | PyVal.success _ => true
  | PyVal.int n => n != 0
  | PyVal.str s => s != ""
  | PyVal.pybool b => b
  | PyVal.pynone => false
  | _ => true

/-- `Result.unwrap(msg=None)`: `Success.unwrap` returns the held value;
`Error.unwrap` raises `UnwrapError(msg or default) from e` where the
cause `e` is the held value when it is an Exception instance and
`ErrorWrapper(held)` otherwise. -/
def unwrap (r : PyVal) (msg : Option String) : PyM PyVal :=
  match r with
  | PyVal.success v => PyM.pure v
  | PyVal.error e =>
      PyM.throw (PyVal.excUnwrapError (pyOr msg "Attempted to unwrap an Error")
        (Option.some (if isException e then e else PyVal.excErrorWrapper e)))
  | _ => PyM.throw PyVal.excNotImplemented

/-- `Result.unwrap_or(fallback)`: the held value on Success, the
fallback on Error. -/
def unwrap_or (r : PyVal) (fallback : PyVal) : PyM PyVal :=
  match r with
  | PyVal.success v => PyM.pure v
  | PyVal.error _ => PyM.pure fallback
  | _ => PyM.throw PyVal.excNotImplemented

/-- `Result.unwrap_or_else(fallback)`: the held value on Success,
`fallback()` on Error. -/
def unwrap_or_else (r : PyVal) (fallback : Unit → PyM PyVal) : PyM PyVal :=
  match r with
  | PyVal.success v => PyM.pure v
  | PyVal.error _ => fallback ()
  | _ => PyM.throw PyVal.excNotImplemented

/-- `Result.unwrap_err(msg=None)`: `Error.unwrap_err` returns the held
value; `Success.unwrap_err` substitutes the default message only when
`msg is None` and raises `UnwrapError(msg)` (no cause). -/
def unwrap_err (r : PyVal) (msg : Option String) : PyM PyVal :=
  match r with
  | PyVal.error e => PyM.pure e
  | PyVal.success _ =>
      PyM.throw (PyVal.excUnwrapError
        (match msg with
         | Option.none => "Attempted to unwrap the error from a Success"
         | Option.some m => m)
        Option.none)
  | _ => PyM.throw PyVal.excNotImplemented

/-- `Result.map(cb)`: `Success.map` returns `Success(cb(held))`;
`Error.map` returns `Error(held)` without calling `cb`. -/
def map (r : PyVal) (cb : PyVal → PyM PyVal) : PyM PyVal :=
  match r with
  | PyVal.success v => PyM.bind (cb v) (fun w => PyM.pure (PyVal.success w))
  | PyVal.error e => PyM.pure (PyVal.error e)
  | _ => PyM.throw PyVal.excNotImplemented

/-- `Result.map_err(cb)`: `Error.map_err` returns `Error(cb(held))`;
`Success.map_err` returns `Success(held)` without calling `cb`. -/
def map_err (r : PyVal) (cb : PyVal → PyM PyVal) : PyM PyVal :=
  match r with
  | PyVal.error e => PyM.bind (cb e) (fun w => PyM.pure (PyVal.error w))
  | PyVal.success v => PyM.pure (PyVal.success v)
  | _ => PyM.throw PyVal.excNotImplemented

/-- `Result.map_or(default, cb)`: `cb(held)` on Success, the plain
default on Error. -/
def map_or (r : PyVal) (dflt : PyVal) (cb : PyVal → PyM PyVal) : PyM PyVal :=
  match r with
  | PyVal.success v => cb v
  | PyVal.error _ => PyM.pure dflt
  | _ => PyM.throw PyVal.excNotImplemented

/-- `Result.map_or_else(default, cb)`: `cb(held)` on Success,
`default()` on Error. -/
def map_or_else (r : PyVal) (dflt : Unit → PyM PyVal) (cb : PyVal → PyM PyVal) :
    PyM PyVal :=
  match r with
  | PyVal.success v => cb v
  | PyVal.error _ => dflt ()
  | _ => PyM.throw PyVal.excNotImplemented

/-- `Result.and_then(cb)`: `Success.and_then` returns `cb(held)`;
`Error.and_then` returns `Error(held)` without calling `cb`. -/
def and_then (r : PyVal) (cb : PyVal → PyM PyVal) : PyM PyVal :=
  match r with
  | PyVal.success v => cb v
  | PyVal.error e => PyM.pure (PyVal.error e)
  | _ => PyM.throw PyVal.excNotImplemented

/-- `Result.or_else(cb)`: `Error.or_else` returns `cb(held)`;
`Success.or_else` returns `Success(held)` without calling `cb`. -/
def or_else (r : PyVal) (cb : PyVal → PyM PyVal) : PyM PyVal :=
  match r with
  | PyVal.error e => cb e
  | PyVal.success v => PyM.pure (PyVal.success v)
  | _ => PyM.throw PyVal.excNotImplemented

/-- `Result.err()`: `Error.err` returns `Something(held)`,
`Success.err` returns `Nothing()`. -/
def err (r : PyVal) : PyM PyVal :=
  match r with
  | PyVal.error e => PyM.pure (PyVal.something e)
  | PyVal.success _ => PyM.pure PyVal.nothing
  | _ => PyM.throw PyVal.excNotImplemented

/-- `Result.ok()`: `Success.ok` returns `Something(held)`, `Error.ok`
returns `Nothing()`. -/
def ok (r : PyVal) : PyM PyVal :=
  match r with
  | PyVal.success v => PyM.pure (PyVal.something v)
  | PyVal.error _ => PyM.pure PyVal.nothing
  | _ => PyM.throw PyVal.excNotImplemented

/-- `Result.propagate()`: `Success.propagate` returns the held value;
`Error.propagate` raises `Propagation(held)`. -/
def propagate (r : PyVal) : PyM PyVal :=
  match r with
  | PyVal.success v => PyM.pure v
  | PyVal.error e => PyM.throw (PyVal.excPropagation e)
  | _ => PyM.throw PyVal.excNotImplemented

/-- `wrap_result(catch)` applied to `f` and then to arguments `a`: run
`f(a)`; on normal completion return `Success(result)`; on an exception
matching the catch tuple return `Error(exception)`; any other raised
value keeps unwinding. -/
def wrap_result {α : Type} (catchSet : List ExcClass) (f : α → PyM PyVal) (a : α) :
    PyM PyVal := fun s =>
  match f a s with
  | (Except.ok r, s2) => (Except.ok (PyVal.success r), s2)
  | (Except.error e, s2) =>
      if matchesCatch e catchSet then (Except.ok (PyVal.error e), s2)
      else (Except.error e, s2)

/-- `unwrap_result(f)` applied to arguments `a`: run `f(a)` to get a
Result; if `result.is_ok()` return `result.unwrap()`; otherwise take
`err = result.unwrap_err()` and raise it directly when it is an
Exception instance, else raise `ErrorWrapper(err)`. -/
def unwrap_result {α : Type} (f : α → PyM PyVal) (a : α) : PyM PyVal :=
  PyM.bind (f a) (fun r =>
    PyM.bind (is_ok r) (fun b =>
      if b then unwrap r Option.none
      else PyM.bind (unwrap_err r Option.none) (fun e =>
        if isException e then PyM.throw e
        else PyM.throw (PyVal.excErrorWrapper e))))

/-- `stop(f)` applied to arguments `a`: run `f(a)`; on normal completion
with value `r` return `Success(r)`; a raised `Propagation` is
intercepted and turned into `Error(signal.err)`; every other raised
value keeps unwinding. -/
def stop {α : Type} (f : α → PyM PyVal) (a : α) : PyM PyVal := fun s =>
  match f a s with
  | (Except.ok r, s2) => (Except.ok (PyVal.success r), s2)
  | (Except.error (PyVal.excPropagation e), s2) => (Except.ok (PyVal.error e), s2)
  | (Except.error e, s2) => (Except.error e, s2)

end simple_monads

namespace pyadt

/-- `Result.is_ok` (src/pyadt/result.py): identical to the
simple_monads definition. -/
def is_ok : PyVal → PyM Bool
  | PyVal.error _ => PyM.pure false
  | PyVal.success _ => PyM.pure true
  | _ => PyM.throw PyVal.excNotImplemented

/-- `Result.is_err` (src/pyadt/result.py). -/
def is_err : PyVal → PyM Bool
  | PyVal.error _ => PyM.pure true
  | PyVal.success _ => PyM.pure false
  | _ => PyM.throw PyVal.excNotImplemented

/-- `__bool__` (src/pyadt/result.py). -/
def py_bool : PyVal → Bool
  | PyVal.error _ => false
  | PyVal.success _ => true
  | PyVal.int n => n != 0
  | PyVal.str s => s != ""
  | PyVal.pybool b => b
  | PyVal.pynone => false
  | _ => true

/-- `Result.unwrap(msg=None)` (src/pyadt/result.py). -/
def unwrap (r : PyVal) (msg : Option String) : PyM PyVal :=
  match r with
  | PyVal.success v => PyM.pure v
  | PyVal.error e =>
      PyM.throw (PyVal.excUnwrapError (pyOr msg "Attempted to unwrap an Error")
        (Option.some (if isException e then e else PyVal.excErrorWrapper e)))
  | _ => PyM.throw PyVal.excNotImplemented

/-- `Result.unwrap_or(fallback)` (src/pyadt/result.py). -/
def unwrap_or (r : PyVal) (fallback : PyVal) : PyM PyVal :=
  match r with
  | PyVal.success v => PyM.pure v
  | PyVal.error _ => PyM.pure fallback
  | _ => PyM.throw PyVal.excNotImplemented

/-- `Result.unwrap_or_else(fallback)` (src/pyadt/result.py). -/
def unwrap_or_else (r : PyVal) (fallback : Unit → PyM PyVal) : PyM PyVal :=
  match r with
  | PyVal.success v => PyM.pure v
  | PyVal.error _ => fallback ()
  | _ => PyM.throw PyVal.excNotImplemented

/-- `Result.unwrap_err(msg=None)` (src/pyadt/result.py). -/
def unwrap_err (r : PyVal) (msg : Option String) : PyM PyVal :=
  match r with
  | PyVal.error e => PyM.pure e
  | PyVal.success _ =>
      PyM.throw (PyVal.excUnwrapError
        (match msg with
         | Option.none => "Attempted to unwrap the error from a Success"
         | Option.some m => m)
        Option.none)
  | _ => PyM.throw PyVal.excNotImplemented

/-- `Result.map(cb)` (src/pyadt/result.py). -/
def map (r : PyVal) (cb : PyVal → PyM PyVal) : PyM PyVal :=
  match r with
  | PyVal.success v => PyM.bind (cb v) (fun w => PyM.pure (PyVal.success w))
  | PyVal.error e => PyM.pure (PyVal.error e)
  | _ => PyM.throw PyVal.excNotImplemented

/-- `Result.map_err(cb)` (src/pyadt/result.py). -/
def map_err (r : PyVal) (cb : PyVal → PyM PyVal) : PyM PyVal :=
  match r with
  | PyVal.error e => PyM.bind (cb e) (fun w => PyM.pure (PyVal.error w))
  | PyVal.success v => PyM.pure (PyVal.success v)
  | _ => PyM.throw PyVal.excNotImplemented

/-- `Result.map_or(default, cb)` (src/pyadt/result.py). -/
def map_or (r : PyVal) (dflt : PyVal) (cb : PyVal → PyM PyVal) : PyM PyVal :=
  match r with
  | PyVal.success v => cb v
  | PyVal.error _ => PyM.pure dflt
  | _ => PyM.throw PyVal.excNotImplemented

/-- `Result.map_or_else(default, cb)` (src/pyadt/result.py). -/
def map_or_else (r : PyVal) (dflt : Unit → PyM PyVal) (cb : PyVal → PyM PyVal) :
    PyM PyVal :=
  match r with
  | PyVal.success v => cb v
  | PyVal.error _ => dflt ()
  | _ => PyM.throw PyVal.excNotImplemented

/-- `Result.and_then(cb)` (src/pyadt/result.py). -/
def and_then (r : PyVal) (cb : PyVal → PyM PyVal) : PyM PyVal :=
  match r with
  | PyVal.success v => cb v
  | PyVal.error e => PyM.pure (PyVal.error e)
  | _ => PyM.throw PyVal.excNotImplemented

/-- `Result.or_else(cb)` (src/pyadt/result.py). -/
def or_else (r : PyVal) (cb : PyVal → PyM PyVal) : PyM PyVal :=
  match r with
  | PyVal.error e => cb e
  | PyVal.success v => PyM.pure (PyVal.success v)
  | _ => PyM.throw PyVal.excNotImplemented

/-- `Result.err()` (src/pyadt/result.py). -/
def err (r : PyVal) : PyM PyVal :=
  match r with
  | PyVal.error e => PyM.pure (PyVal.something e)
  | PyVal.success _ => PyM.pure PyVal.nothing
  | _ => PyM.throw PyVal.excNotImplemented

/-- `Result.ok()` (src/pyadt/result.py). -/
def ok (r : PyVal) : PyM PyVal :=
  match r with
  | PyVal.success v => PyM.pure (PyVal.something v)
  | PyVal.error _ => PyM.pure PyVal.nothing
  | _ => PyM.throw PyVal.excNotImplemented

/-- `wrap_result(catch)` (src/pyadt/result.py): identical body to the
simple_monads definition. -/
def wrap_result {α : Type} (catchSet : List ExcClass) (f : α → PyM PyVal) (a : α) :
    PyM PyVal := fun s =>
  match f a s with
  | (Except.ok r, s2) => (Except.ok (PyVal.success r), s2)
  | (Except.error e, s2) =>
      if matchesCatch e catchSet then (Except.ok (PyVal.error e), s2)
      else (Except.error e, s2)

/-- `unwrap_result(f)` (src/pyadt/result.py): same body as the
simple_monads definition up to local variable names (`r`, `e` instead of
`result`, `err`). -/
def unwrap_result {α : Type} (f : α → PyM PyVal) (a : α) : PyM PyVal :=
  PyM.bind (f a) (fun r =>
    PyM.bind (is_ok r) (fun b =>
      if b then unwrap r Option.none
      else PyM.bind (unwrap_err r Option.none) (fun e =>
        if isException e then PyM.throw e
        else PyM.throw (PyVal.excErrorWrapper e))))

end pyadt

/-- C1: every combinator short-circuits on the variant it is not named
for and passes that variant through unchanged: `Success(v).map(f) ==
Success(f(v))` and `Error(e).map(cb) == Error(e)` for every callback
`cb`, even an effectful or raising one, so `cb` is never invoked;
`Success(v).and_then(cb) == cb(v)` and `Error(e).and_then(cb) ==
Error(e)` with `cb` never invoked; dually `Error(e).map_err(f) ==
Error(f(e))` and `Success(v).map_err(cb) == Success(v)` with `cb` never
invoked, and `Error(e).or_else(cb) == cb(e)` and `Success(v).or_else(cb)
== Success(v)` with `cb` never invoked.  Quantifying the short-circuit
side over an arbitrary effectful callback and equating the result with
an effect-free computation shows the callback never runs. -/
theorem c1_combinators_short_circuit :
    (∀ (v : PyVal) (f : PyVal → PyVal),
        simple_monads.map (PyVal.success v) (fun x => PyM.pure (f x))
          = PyM.pure (PyVal.success (f v)))
  ∧ (∀ (e : PyVal) (cb : PyVal → PyM PyVal),
        simple_monads.map (PyVal.error e) cb = PyM.pure (PyVal.error e))
  ∧ (∀ (v : PyVal) (cb : PyVal → PyM PyVal),
        simple_monads.and_then (PyVal.success v) cb = cb v)
  ∧ (∀ (e : PyVal) (cb : PyVal → PyM PyVal),
        simple_monads.and_then (PyVal.error e) cb = PyM.pure (PyVal.error e))
  ∧ (∀ (e : PyVal) (f : PyVal → PyVal),
        simple_monads.map_err (PyVal.error e) (fun x => PyM.pure (f x))
          = PyM.pure (PyVal.error (f e)))
  ∧ (∀ (v : PyVal) (cb : PyVal → PyM PyVal),
        simple_monads.map_err (PyVal.success v) cb = PyM.pure (PyVal.success v))
  ∧ (∀ (e : PyVal) (cb : PyVal → PyM PyVal),
        simple_monads.or_else (PyVal.error e) cb = cb e)
  ∧ (∀ (v : PyVal) (cb : PyVal → PyM PyVal),
        simple_monads.or_else (PyVal.success v) cb = PyM.pure (PyVal.success v)) := by
  refine ⟨?_, ?_, ?_, ?_, ?_, ?_, ?_, ?_⟩ <;> intros <;> rfl

/-- C3: `Success(v).is_ok()` is true, `.is_err()` is false, `.unwrap()`
returns v (for any message), `.unwrap_or(x)` returns v, and Success is
truthy; `Error(e).is_err()` is true, `.is_ok()` is false,
`.unwrap_err()` returns e (for any message), `.unwrap_or(x)` returns x,
and Error is falsy. -/
theorem c3_inspection_and_unwrap_basics :
    (∀ (v : PyVal), simple_monads.is_ok (PyVal.success v) = PyM.pure true)
  ∧ (∀ (v : PyVal), simple_monads.is_err (PyVal.success v) = PyM.pure false)
  ∧ (∀ (v : PyVal) (msg : Option String),
        simple_monads.unwrap (PyVal.success v) msg = PyM.pure v)
  ∧ (∀ (v x : PyVal), simple_monads.unwrap_or (PyVal.success v) x = PyM.pure v)
  ∧ (∀ (v : PyVal), simple_monads.py_bool (PyVal.success v) = true)
  ∧ (∀ (e : PyVal), simple_monads.is_err (PyVal.error e) = PyM.pure true)
  ∧ (∀ (e : PyVal), simple_monads.is_ok (PyVal.error e) = PyM.pure false)
  ∧ (∀ (e : PyVal) (msg : Option String),
        simple_monads.unwrap_err (PyVal.error e) msg = PyM.pure e)
  ∧ (∀ (e x : PyVal), simple_monads.unwrap_or (PyVal.error e) x = PyM.pure x)
  ∧ (∀ (e : PyVal), simple_monads.py_bool (PyVal.error e) = false) := by
  refine ⟨?_, ?_, ?_, ?_, ?_, ?_, ?_, ?_, ?_, ?_⟩ <;> intros <;> rfl

/-- C5: the ok/err projections are dual: `Success(v).ok()` is
present(v) and `Success(v).err()` is absent; `Error(e).err()` is
present(e) and `Error(e).ok()` is absent; and for every Result object
exactly one of the two projections is present. -/
theorem c5_ok_err_duality :
    (∀ (v : PyVal),
        simple_monads.ok (PyVal.success v) = PyM.pure (PyVal.something v)
      ∧ simple_monads.err (PyVal.success v) = PyM.pure PyVal.nothing)
  ∧ (∀ (e : PyVal),
        simple_monads.err (PyVal.error e) = PyM.pure (PyVal.something e)
      ∧ simple_monads.ok (PyVal.error e) = PyM.pure PyVal.nothing)
  ∧ (∀ (r : PyVal), isResultObj r = true →
        ∃ a b, simple_monads.ok r = PyM.pure a ∧ simple_monads.err r = PyM.pure b
          ∧ isPresent a ≠ isPresent b) := by
  refine ⟨fun v => ⟨rfl, rfl⟩, fun e => ⟨rfl, rfl⟩, fun r hr => ?_⟩
  cases r with
  | success v => exact ⟨PyVal.something v, PyVal.nothing, rfl, rfl, fun hc => Bool.noConfusion hc⟩
  | error e => exact ⟨PyVal.nothing, PyVal.something e, rfl, rfl, fun hc => Bool.noConfusion hc⟩
  | int n => simp [isResultObj] at hr
  | str s => simp [isResultObj] at hr
  | pybool b => simp [isResultObj] at hr
  | pynone => simp [isResultObj] at hr
  | something x => simp [isResultObj] at hr
  | nothing => simp [isResultObj] at hr
  | excUnwrapError m c => simp [isResultObj] at hr
  | excErrorWrapper x => simp [isResultObj] at hr
  | excPropagation x => simp [isResultObj] at hr
  | excValueError m => simp [isResultObj] at hr
  | excNotImplemented => simp [isResultObj] at hr

/-- Witness for C5 at the concrete Result `Success(3)`. -/
theorem c5_ok_err_duality_witness :
    ∃ a b, simple_monads.ok (PyVal.success (PyVal.int 3)) = PyM.pure a
      ∧ simple_monads.err (PyVal.success (PyVal.int 3)) = PyM.pure b
      ∧ isPresent a ≠ isPresent b :=
  c5_ok_err_duality.2.2 (PyVal.success (PyVal.int 3)) rfl

/-- C10: the two unwrap operations treat an explicit empty-string
message differently: `Error(e).unwrap('')` discards the empty string
and raises UnwrapError with the default message (the source tests
`msg or default`, and the empty string is falsy), while
`Success(v).unwrap_err('')` keeps the empty string as the message (the
source substitutes the default only when `msg is None`). -/
theorem c10_empty_message_asymmetry :
    (∀ (e : PyVal),
        simple_monads.unwrap (PyVal.error e) (Option.some "")
          = PyM.throw (PyVal.excUnwrapError "Attempted to unwrap an Error"
              (Option.some (if isException e then e else PyVal.excErrorWrapper e))))
  ∧ (∀ (v : PyVal),
        simple_monads.unwrap_err (PyVal.success v) (Option.some "")
          = PyM.throw (PyVal.excUnwrapError "" Option.none)) := by
  constructor
  · intro e
    simp [simple_monads.unwrap, pyOr]
  · intro v
    rfl

/-- C2: the stop boundary contract.  If the wrapped computation
completes normally with value r the boundary returns Success(r); a
`propagate()` on Error(e) inside the boundary makes the boundary return
Error(e) and skips every continuation between the call and the boundary
(the continuation `g` is arbitrary — effectful or raising — and the
overall result is the effect-free `PyM.pure`, so `g` never runs);
`propagate()` on Success(v) returns v and execution continues with the
continuation; and stop intercepts only the Propagation signal, letting
every other raised value pass through unaltered with its side effects
intact. -/
theorem c2_stop_propagate_contract :
    (∀ (α : Type) (f : α → PyM PyVal) (a : α) (s : Nat) (r : PyVal) (s2 : Nat),
        f a s = (Except.ok r, s2) →
        simple_monads.stop f a s = (Except.ok (PyVal.success r), s2))
  ∧ (∀ (α : Type) (e : PyVal) (g : PyVal → PyM PyVal) (a : α),
        simple_monads.stop
          (fun _ => PyM.bind (simple_monads.propagate (PyVal.error e)) g) a
          = PyM.pure (PyVal.error e))
  ∧ (∀ (v : PyVal) (g : PyVal → PyM PyVal),
        PyM.bind (simple_monads.propagate (PyVal.success v)) g = g v)
  ∧ (∀ (α : Type) (f : α → PyM PyVal) (a : α) (s : Nat) (ex : PyVal) (s2 : Nat),
        f a s = (Except.error ex, s2) →
        (∀ p, ex ≠ PyVal.excPropagation p) →
        simple_monads.stop f a s = (Except.error ex, s2)) := by
  refine ⟨?_, ?_, ?_, ?_⟩
  · intro α f a s r s2 h
    unfold simple_monads.stop
    rw [h]
  · intro α e g a
    rfl
  · intro v g
    rfl
  · intro α f a s ex s2 h hne
    unfold simple_monads.stop
    rw [h]
    cases ex <;> first | rfl | exact absurd rfl (hne _)

/-- Witness for C2 at concrete computations: a normally-completing
computation is wrapped in Success, and a raised ValueError passes
through the stop boundary unaltered. -/
theorem c2_stop_propagate_contract_witness :
    simple_monads.stop (fun _ : Unit => PyM.pure (PyVal.int 1)) () 0
      = (Except.ok (PyVal.success (PyVal.int 1)), 0)
  ∧ simple_monads.stop (fun _ : Unit => PyM.throw (PyVal.excValueError "boom")) () 0
      = (Except.error (PyVal.excValueError "boom"), 0) :=
  ⟨c2_stop_propagate_contract.1 Unit (fun _ => PyM.pure (PyVal.int 1)) () 0
      (PyVal.int 1) 0 rfl,
   c2_stop_propagate_contract.2.2.2 Unit
      (fun _ => PyM.throw (PyVal.excValueError "boom")) () 0
      (PyVal.excValueError "boom") 0 rfl (fun _ h => PyVal.noConfusion h)⟩

/-- A computation that raises nothing: every run completes normally. -/
def noRaise {α : Type} (m : PyM α) : Prop :=
  ∀ s, ∃ a s2, m s = (Except.ok a, s2)

/-- C4: `Success(v).unwrap_err(msg)` always raises UnwrapError (with no
cause); `Error(e).unwrap(msg)` always raises UnwrapError whose cause is
e itself when e is an Exception instance and `ErrorWrapper(e)`
otherwise; and on the combinator surface these are the only operations
that raise on the non-matching variant: unwrap on Success and
unwrap_err on Error return normally, and every other table operation
(is_ok, is_err, unwrap_or, unwrap_or_else, map, map_err, map_or,
map_or_else, and_then, or_else, ok, err) completes normally on both
variants, with the callback on the short-circuited side fully arbitrary
and callbacks on the active side effect-free. -/
theorem c4_unwrap_raises_unwrap_error :
    (∀ (v : PyVal) (msg : Option String),
        simple_monads.unwrap_err (PyVal.success v) msg
          = PyM.throw (PyVal.excUnwrapError
              (match msg with
               | Option.none => "Attempted to unwrap the error from a Success"
               | Option.some m => m) Option.none))
  ∧ (∀ (e : PyVal) (msg : Option String), isException e = true →
        simple_monads.unwrap (PyVal.error e) msg
          = PyM.throw (PyVal.excUnwrapError
              (pyOr msg "Attempted to unwrap an Error") (Option.some e)))
  ∧ (∀ (e : PyVal) (msg : Option String), isException e = false →
        simple_monads.unwrap (PyVal.error e) msg
          = PyM.throw (PyVal.excUnwrapError
              (pyOr msg "Attempted to unwrap an Error")
              (Option.some (PyVal.excErrorWrapper e))))
  ∧ (∀ (v : PyVal) (msg : Option String),
        simple_monads.unwrap (PyVal.success v) msg = PyM.pure v)
  ∧ (∀ (e : PyVal) (msg : Option String),
        simple_monads.unwrap_err (PyVal.error e) msg = PyM.pure e)
  ∧ (∀ (v : PyVal),
        noRaise (simple_monads.is_ok (PyVal.success v))
      ∧ noRaise (simple_monads.is_err (PyVal.success v))
      ∧ (∀ x, noRaise (simple_monads.unwrap_or (PyVal.success v) x))
      ∧ (∀ t, noRaise (simple_monads.unwrap_or_else (PyVal.success v) t))
      ∧ (∀ (f : PyVal → PyVal),
            noRaise (simple_monads.map (PyVal.success v) (fun y => PyM.pure (f y))))
      ∧ (∀ cb, noRaise (simple_monads.map_err (PyVal.success v) cb))
      ∧ (∀ x (f : PyVal → PyVal),
            noRaise (simple_monads.map_or (PyVal.success v) x (fun y => PyM.pure (f y))))
      ∧ (∀ t (f : PyVal → PyVal),
            noRaise (simple_monads.map_or_else (PyVal.success v) t
              (fun y => PyM.pure (f y))))
      ∧ (∀ (f : PyVal → PyVal),
            noRaise (simple_monads.and_then (PyVal.success v) (fun y => PyM.pure (f y))))
      ∧ (∀ cb, noRaise (simple_monads.or_else (PyVal.success v) cb))
      ∧ noRaise (simple_monads.ok (PyVal.success v))
      ∧ noRaise (simple_monads.err (PyVal.success v)))
  ∧ (∀ (e : PyVal),
        noRaise (simple_monads.is_ok (PyVal.error e))
      ∧ noRaise (simple_monads.is_err (PyVal.error e))
      ∧ (∀ x, noRaise (simple_monads.unwrap_or (PyVal.error e) x))
      ∧ (∀ x, noRaise (simple_monads.unwrap_or_else (PyVal.error e)
            (fun _ => PyM.pure x)))
      ∧ (∀ cb, noRaise (simple_monads.map (PyVal.error e) cb))
      ∧ (∀ (f : PyVal → PyVal),
            noRaise (simple_monads.map_err (PyVal.error e) (fun y => PyM.pure (f y))))
      ∧ (∀ x cb, noRaise (simple_monads.map_or (PyVal.error e) x cb))
      ∧ (∀ x cb, noRaise (simple_monads.map_or_else (PyVal.error e)
            (fun _ => PyM.pure x) cb))
      ∧ (∀ cb, noRaise (simple_monads.and_then (PyVal.error e) cb))
      ∧ (∀ (f : PyVal → PyVal),
            noRaise (simple_monads.or_else (PyVal.error e) (fun y => PyM.pure (f y))))
      ∧ noRaise (simple_monads.ok (PyVal.error e))
      ∧ noRaise (simple_monads.err (PyVal.error e))) := by
  refine ⟨fun v msg => rfl, ?_, ?_, fun v msg => rfl, fun e msg => rfl, ?_, ?_⟩
  · intro e msg h
    simp [simple_monads.unwrap, h]
  · intro e msg h
    simp [simple_monads.unwrap, h]
  · intro v
    exact ⟨fun s => ⟨_, _, rfl⟩, fun s => ⟨_, _, rfl⟩, fun x s => ⟨_, _, rfl⟩,
      fun t s => ⟨_, _, rfl⟩, fun f s => ⟨_, _, rfl⟩, fun cb s => ⟨_, _, rfl⟩,
      fun x f s => ⟨_, _, rfl⟩, fun t f s => ⟨_, _, rfl⟩, fun f s => ⟨_, _, rfl⟩,
      fun cb s => ⟨_, _, rfl⟩, fun s => ⟨_, _, rfl⟩, fun s => ⟨_, _, rfl⟩⟩
  · intro e
    exact ⟨fun s => ⟨_, _, rfl⟩, fun s => ⟨_, _, rfl⟩, fun x s => ⟨_, _, rfl⟩,
      fun x s => ⟨_, _, rfl⟩, fun cb s => ⟨_, _, rfl⟩, fun f s => ⟨_, _, rfl⟩,
      fun x cb s => ⟨_, _, rfl⟩, fun x cb s => ⟨_, _, rfl⟩, fun cb s => ⟨_, _, rfl⟩,
      fun f s => ⟨_, _, rfl⟩, fun s => ⟨_, _, rfl⟩, fun s => ⟨_, _, rfl⟩⟩

/-- Witness for C4: unwrap on an Error holding an Exception chains the
exception itself as cause; on an Error holding a non-exception it
chains an ErrorWrapper. -/
theorem c4_unwrap_raises_unwrap_error_witness :
    simple_monads.unwrap (PyVal.error (PyVal.excValueError "boom")) Option.none
      = PyM.throw (PyVal.excUnwrapError "Attempted to unwrap an Error"
          (Option.some (PyVal.excValueError "boom")))
  ∧ simple_monads.unwrap (PyVal.error (PyVal.int 0)) Option.none
      = PyM.throw (PyVal.excUnwrapError "Attempted to unwrap an Error"
          (Option.some (PyVal.excErrorWrapper (PyVal.int 0)))) :=
  ⟨c4_unwrap_raises_unwrap_error.2.1 (PyVal.excValueError "boom") Option.none rfl,
   c4_unwrap_raises_unwrap_error.2.2.1 (PyVal.int 0) Option.none rfl⟩

/-- C6: a computation wrapped by `wrap_result(catch_set)`, invoked with
any arguments: on normal completion with value r it returns Success(r);
on a raised failure matching the catch set it returns Error(failure);
a raised failure not matching the catch set keeps unwinding
unconverted; and the default catch set (`Exception`) matches every
exception instance. -/
theorem c6_wrap_result_contract :
    (∀ (α : Type) (catchSet : List ExcClass) (f : α → PyM PyVal) (a : α)
        (s : Nat) (r : PyVal) (s2 : Nat),
        f a s = (Except.ok r, s2) →
        simple_monads.wrap_result catchSet f a s = (Except.ok (PyVal.success r), s2))
  ∧ (∀ (α : Type) (catchSet : List ExcClass) (f : α → PyM PyVal) (a : α)
        (s : Nat) (ex : PyVal) (s2 : Nat),
        f a s = (Except.error ex, s2) → matchesCatch ex catchSet = true →
        simple_monads.wrap_result catchSet f a s = (Except.ok (PyVal.error ex), s2))
  ∧ (∀ (α : Type) (catchSet : List ExcClass) (f : α → PyM PyVal) (a : α)
        (s : Nat) (ex : PyVal) (s2 : Nat),
        f a s = (Except.error ex, s2) → matchesCatch ex catchSet = false →
        simple_monads.wrap_result catchSet f a s = (Except.error ex, s2))
  ∧ (∀ (ex : PyVal), isException ex = true →
        matchesCatch ex [ExcClass.exceptionClass] = true) := by
  refine ⟨?_, ?_, ?_, ?_⟩
  · intro α catchSet f a s r s2 h
    unfold simple_monads.wrap_result
    rw [h]
  · intro α catchSet f a s ex s2 h hm
    unfold simple_monads.wrap_result
    rw [h]
    simp [hm]
  · intro α catchSet f a s ex s2 h hm
    unfold simple_monads.wrap_result
    rw [h]
    simp [hm]
  · intro ex h
    simp [matchesCatch, instanceOf, h]

/-- Witness for C6 at concrete computations: a normal return becomes
Success; a ValueError is caught by the default catch set and becomes
Error; a ValueError escapes a catch set that only names UnwrapError;
and a concrete exception matches the default catch set. -/
theorem c6_wrap_result_contract_witness :
    simple_monads.wrap_result [ExcClass.exceptionClass]
        (fun _ : Unit => PyM.pure (PyVal.int 7)) () 0
      = (Except.ok (PyVal.success (PyVal.int 7)), 0)
  ∧ simple_monads.wrap_result [ExcClass.exceptionClass]
        (fun _ : Unit => PyM.throw (PyVal.excValueError "bad")) () 0
      = (Except.ok (PyVal.error (PyVal.excValueError "bad")), 0)
  ∧ simple_monads.wrap_result [ExcClass.unwrapErrorClass]
        (fun _ : Unit => PyM.throw (PyVal.excValueError "bad")) () 0
      = (Except.error (PyVal.excValueError "bad"), 0)
  ∧ matchesCatch (PyVal.excValueError "bad") [ExcClass.exceptionClass] = true :=
  ⟨c6_wrap_result_contract.1 Unit [ExcClass.exceptionClass]
      (fun _ => PyM.pure (PyVal.int 7)) () 0 (PyVal.int 7) 0 rfl,
   c6_wrap_result_contract.2.1 Unit [ExcClass.exceptionClass]
      (fun _ => PyM.throw (PyVal.excValueError "bad")) () 0
      (PyVal.excValueError "bad") 0 rfl rfl,
   c6_wrap_result_contract.2.2.1 Unit [ExcClass.unwrapErrorClass]
      (fun _ => PyM.throw (PyVal.excValueError "bad")) () 0
      (PyVal.excValueError "bad") 0 rfl rfl,
   c6_wrap_result_contract.2.2.2 (PyVal.excValueError "bad") rfl⟩

/-- C7: a Result-returning computation wrapped by `unwrap_result`,
invoked with any arguments: returns x when the inner computation
returns Success(x); raises e itself when it returns Error(e) with e an
Exception instance; raises ErrorWrapper(e) when e is not an Exception
instance; and composing with wrap_result shows the structural inverse:
`unwrap_result(wrap_result()(f))` behaves exactly as f on every
argument and every state. -/
theorem c7_unwrap_result_contract :
    (∀ (α : Type) (g : α → PyM PyVal) (a : α) (s : Nat) (x : PyVal) (s2 : Nat),
        g a s = (Except.ok (PyVal.success x), s2) →
        simple_monads.unwrap_result g a s = (Except.ok x, s2))
  ∧ (∀ (α : Type) (g : α → PyM PyVal) (a : α) (s : Nat) (e : PyVal) (s2 : Nat),
        isException e = true →
        g a s = (Except.ok (PyVal.error e), s2) →
        simple_monads.unwrap_result g a s = (Except.error e, s2))
  ∧ (∀ (α : Type) (g : α → PyM PyVal) (a : α) (s : Nat) (e : PyVal) (s2 : Nat),
        isException e = false →
        g a s = (Except.ok (PyVal.error e), s2) →
        simple_monads.unwrap_result g a s
          = (Except.error (PyVal.excErrorWrapper e), s2))
  ∧ (∀ (α : Type) (f : α → PyM PyVal) (a : α),
        simple_monads.unwrap_result
          (simple_monads.wrap_result [ExcClass.exceptionClass] f) a = f a) := by
  refine ⟨?_, ?_, ?_, ?_⟩
  · intro α g a s x s2 h
    unfold simple_monads.unwrap_result PyM.bind
    rw [h]
    rfl
  · intro α g a s e s2 he h
    unfold simple_monads.unwrap_result PyM.bind
    rw [h]
    simp [simple_monads.is_ok, simple_monads.unwrap_err, PyM.pure, PyM.throw, he]
  · intro α g a s e s2 he h
    unfold simple_monads.unwrap_result PyM.bind
    rw [h]
    simp [simple_monads.is_ok, simple_monads.unwrap_err, PyM.pure, PyM.throw, he]
  · intro α f a
    funext s
    unfold simple_monads.unwrap_result simple_monads.wrap_result PyM.bind
    cases hfs : f a s with
    | mk x s2 =>
      cases x with
      | ok r =>
        simp only [hfs]
        rfl
      | error ex =>
        by_cases he : isException ex
        · simp [hfs, matchesCatch, instanceOf, he, simple_monads.is_ok,
            simple_monads.unwrap_err, PyM.pure, PyM.throw]
        · simp [hfs, matchesCatch, instanceOf, he]

/-- Witness for C7 at concrete inner computations returning Success(9),
Error(ValueError) and Error(0). -/
theorem c7_unwrap_result_contract_witness :
    simple_monads.unwrap_result
        (fun _ : Unit => PyM.pure (PyVal.success (PyVal.int 9))) () 0
      = (Except.ok (PyVal.int 9), 0)
  ∧ simple_monads.unwrap_result
        (fun _ : Unit => PyM.pure (PyVal.error (PyVal.excValueError "bad"))) () 0
      = (Except.error (PyVal.excValueError "bad"), 0)
  ∧ simple_monads.unwrap_result
        (fun _ : Unit => PyM.pure (PyVal.error (PyVal.int 0))) () 0
      = (Except.error (PyVal.excErrorWrapper (PyVal.int 0)), 0) :=
  ⟨c7_unwrap_result_contract.1 Unit
      (fun _ => PyM.pure (PyVal.success (PyVal.int 9))) () 0 (PyVal.int 9) 0 rfl,
   c7_unwrap_result_contract.2.1 Unit
      (fun _ => PyM.pure (PyVal.error (PyVal.excValueError "bad"))) () 0
      (PyVal.excValueError "bad") 0 rfl rfl,
   c7_unwrap_result_contract.2.2.1 Unit
      (fun _ => PyM.pure (PyVal.error (PyVal.int 0))) () 0 (PyVal.int 0) 0 rfl rfl⟩

/-- C9: the Propagation signal class is a subclass of Exception, so a
wrap_result boundary with the default catch set that lies between a
`propagate()` call and its intended stop boundary intercepts the signal
and converts it into Error(<the Propagation instance>); without the
intervening boundary the stop boundary would have produced Error(e),
but with it the stop boundary sees a normal return and produces
Success(Error(<the Propagation instance>)) — the signal never reaches
it. -/
theorem c9_wrap_result_intercepts_propagation :
    (∀ (e : PyVal),
        instanceOf (PyVal.excPropagation e) ExcClass.exceptionClass = true)
  ∧ (∀ (α : Type) (e : PyVal) (g : PyVal → PyM PyVal) (a : α),
        simple_monads.wrap_result [ExcClass.exceptionClass]
          (fun _ => PyM.bind (simple_monads.propagate (PyVal.error e)) g) a
          = PyM.pure (PyVal.error (PyVal.excPropagation e)))
  ∧ (∀ (α : Type) (e : PyVal) (g : PyVal → PyM PyVal) (a : α),
        simple_monads.stop
          (fun _ => PyM.bind (simple_monads.propagate (PyVal.error e)) g) a
          = PyM.pure (PyVal.error e))
  ∧ (∀ (α : Type) (e : PyVal) (g : PyVal → PyM PyVal) (a : α),
        simple_monads.stop
          (simple_monads.wrap_result [ExcClass.exceptionClass]
            (fun _ => PyM.bind (simple_monads.propagate (PyVal.error e)) g)) a
          = PyM.pure (PyVal.success (PyVal.error (PyVal.excPropagation e)))) := by
  refine ⟨fun e => rfl, fun α e g a => rfl, fun α e g a => rfl, fun α e g a => rfl⟩

/-- C8: the two near-duplicate modules are observationally equivalent
on their shared surface: every operation defined by both
src/pyadt/result.py and src/simple_monads/result.py (is_ok, is_err,
unwrap, unwrap_or, unwrap_or_else, unwrap_err, map, map_err, map_or,
map_or_else, and_then, or_else, ok, err, truthiness, wrap_result,
unwrap_result) agrees on every input, returning the same value and
raising the same failure with the same side effects. -/
theorem c8_pyadt_equals_simple_monads :
    (∀ (r : PyVal), pyadt.is_ok r = simple_monads.is_ok r)
  ∧ (∀ (r : PyVal), pyadt.is_err r = simple_monads.is_err r)
  ∧ (∀ (r : PyVal) (msg : Option String),
        pyadt.unwrap r msg = simple_monads.unwrap r msg)
  ∧ (∀ (r x : PyVal), pyadt.unwrap_or r x = simple_monads.unwrap_or r x)
  ∧ (∀ (r : PyVal) (t : Unit → PyM PyVal),
        pyadt.unwrap_or_else r t = simple_monads.unwrap_or_else r t)
  ∧ (∀ (r : PyVal) (msg : Option String),
        pyadt.unwrap_err r msg = simple_monads.unwrap_err r msg)
  ∧ (∀ (r : PyVal) (cb : PyVal → PyM PyVal), pyadt.map r cb = simple_monads.map r cb)
  ∧ (∀ (r : PyVal) (cb : PyVal → PyM PyVal),
        pyadt.map_err r cb = simple_monads.map_err r cb)
  ∧ (∀ (r x : PyVal) (cb : PyVal → PyM PyVal),
        pyadt.map_or r x cb = simple_monads.map_or r x cb)
  ∧ (∀ (r : PyVal) (t : Unit → PyM PyVal) (cb : PyVal → PyM PyVal),
        pyadt.map_or_else r t cb = simple_monads.map_or_else r t cb)
  ∧ (∀ (r : PyVal) (cb : PyVal → PyM PyVal),
        pyadt.and_then r cb = simple_monads.and_then r cb)
  ∧ (∀ (r : PyVal) (cb : PyVal → PyM PyVal),
        pyadt.or_else r cb = simple_monads.or_else r cb)
  ∧ (∀ (r : PyVal), pyadt.ok r = simple_monads.ok r)
  ∧ (∀ (r : PyVal), pyadt.err r = simple_monads.err r)
  ∧ (∀ (r : PyVal), pyadt.py_bool r = simple_monads.py_bool r)
  ∧ (∀ (α : Type) (catchSet : List ExcClass) (f : α → PyM PyVal) (a : α),
        pyadt.wrap_result catchSet f a = simple_monads.wrap_result catchSet f a)
  ∧ (∀ (α : Type) (f : α → PyM PyVal) (a : α),
        pyadt.unwrap_result f a = simple_monads.unwrap_result f a) := by
  refine ⟨?_, ?_, ?_, ?_, ?_, ?_, ?_, ?_, ?_, ?_, ?_, ?_, ?_, ?_, ?_, ?_, ?_⟩ <;>
    intros <;> rfl
